import Mathlib

/-!
Verification of the spack build environment module
(lib/spack/spack/build_environment.py): a shallow embedding of its pure logic,
with theorems checking the documented behaviour.

Modelling conventions: filesystem paths handled by the directory synthesis code
are lists of path components, so that joining one component is list append and
the filesystem root is the empty list; string valued paths are kept as plain
strings where the code manipulates them textually (basename, splitext).
Environments are partial maps from variable names to values. Helpers that live
in other spack modules and are not under src (spack.util.environment,
llnl.util.lang, spack.util.log_parse, spack.util.string, spack.error, and the
traverse method of Spec) are modelled from the spec and carry a doc comment
saying so.
-/

namespace SpackBE

/-- Truthiness of an optional Python string: None and the empty string are falsy. -/
def truthyS : Option String → Bool
  | none => false
  | some s => !(s == "")

/-- Truthiness of an optional Python integer: None and 0 are falsy. -/
def truthyN : Option Nat → Bool
  | none => false
  | some n => !(n == 0)

/-- Boolean prefix test on character lists. -/
def isPrefixOfB : List Char → List Char → Bool
  | [], _ => true
  | _ :: _, [] => false
  | a :: as, b :: bs => a == b && isPrefixOfB as bs

/-- Substring containment on character lists, scanning every suffix. -/
def containsSubAux (pat : List Char) : List Char → Bool
  | [] => isPrefixOfB pat []
  | c :: rest => isPrefixOfB pat (c :: rest) || containsSubAux pat rest

/-- Substring containment on strings, modelling the Python membership test of
one string in another, as used on architecture descriptors. -/
def strContainsSub (hay pat : String) : Bool := containsSubAux pat.data hay.data

/-- Characters of the final path component, modelling os.path.basename on the
character list of a path. -/
def basenameCs (cs : List Char) : List Char :=
  ((cs.reverse.takeWhile fun c => !(c == '/'))).reverse

/-- The os.path.basename of a path string. -/
def basename (p : String) : String := String.mk (basenameCs p.data)

/-- The os.path.splitext split of a path: the extension starts at the last dot
of the final component, provided some non dot character of that component comes
before it. -/
def splitextData (cs : List Char) : List Char × List Char :=
  let b := basenameCs cs
  let dir := cs.take (cs.length - b.length)
  match b.reverse.findIdx? fun c => c == '.' with
  | none => (cs, [])
  | some i =>
    let dotPos := b.length - 1 - i
    if (b.take dotPos).any fun c => !(c == '.') then
      (dir ++ b.take dotPos, b.drop dotPos)
    else (cs, [])

/-- The root part of os.path.splitext on a path string. -/
def splitextRoot (p : String) : String := String.mk (splitextData p.data).1

/-- Platform specific shared library suffix, from dso_suffix in the source:
dylib when the platform is darwin and so elsewhere. -/
def dso_suffix (platform : String) : String :=
  if platform == "darwin" then "dylib" else "so"

/-- Result of the static to shared library conversion: the argument vector
handed to the compiler and the symlinks created, each symlink as the pair of
link target and link name in the argument order of os.symlink. -/
structure STS where
  compilerArgs : List String
  symlinks : List (String × String)
  deriving DecidableEq

/-- The shared library path before version suffixing: the caller supplied path
when truthy, else the static library path with its extension replaced by the
platform suffix. -/
def base_shared_lib (platform staticLib : String) (sharedLib? : Option String) : String :=
  match sharedLib? with
  | some s =>
    if s == "" then splitextRoot staticLib ++ "." ++ dso_suffix platform else s
  | none => splitextRoot staticLib ++ "." ++ dso_suffix platform

/-- The effective compatibility version: the compat_version keyword argument
when passed, defaulting to the version otherwise. -/
def effCompat (version compat? : Option String) : Option String :=
  match compat? with
  | some c => some c
  | none => version

/-- The output filename: suffixed with the version when one is given, else with
the compatibility version when one is given, else left alone. -/
def versioned_shared_lib (base : String) (version compat : Option String) : String :=
  if truthyS version then base ++ "." ++ version.getD ""
  else if truthyS compat then base ++ "." ++ compat.getD ""
  else base

/-- The platform branch of the conversion: shared object flags with an soname
on linux or cray style architectures, dynamiclib flags with an install name and
version arguments on darwin, nothing elsewhere. -/
def platform_link_args (arch base staticLib : String) (version compat : Option String) :
    List String :=
  if strContainsSub arch "linux" || strContainsSub arch "cray" then
    let soname0 := basename base
    let soname := if truthyS compat then soname0 ++ "." ++ compat.getD "" else soname0
    ["-shared", "-Wl,-soname," ++ soname, "-Wl,--whole-archive", staticLib,
      "-Wl,--no-whole-archive"]
  else if strContainsSub arch "darwin" then
    let inm0 := base
    let inm := if truthyS compat then inm0 ++ "." ++ compat.getD "" else inm0
    ["-dynamiclib", "-install_name", inm, "-Wl,-force_load," ++ staticLib]
      ++ (if truthyS compat then ["-compatibility_version", compat.getD ""] else [])
      ++ (if truthyS version then ["-current_version", version.getD ""] else [])
  else []

/-- The symlinks created by the conversion: one from the unversioned name when
a version or compatibility version is given, and one from the compat versioned
name when a compatibility version is given that differs from the version. -/
def sts_symlinks (base out : String) (version compat : Option String) :
    List (String × String) :=
  (if truthyS version || truthyS compat then [(basename out, base)] else [])
    ++ (if truthyS compat && !(compat == version) then
          [(basename out, base ++ "." ++ compat.getD "")] else [])

/-- Faithful port of _static_to_shared_library: computes the platform specific
compiler arguments, appends the extra arguments and the output flag with the
possibly versioned output path, and records the symlinks created. -/
def _static_to_shared_library (platform arch staticLib : String)
    (sharedLib? : Option String) (arguments : List String)
    (version compat? : Option String) : STS :=
  let compat := effCompat version compat?
  let base := base_shared_lib platform staticLib sharedLib?
  let out := versioned_shared_lib base version compat
  ⟨platform_link_args arch base staticLib version compat ++ arguments ++ ["-o", out],
    sts_symlinks base out version compat⟩

/-- The argument following the final -o flag of a compiler invocation. -/
def oPath (r : STS) : Option String :=
  match r.compilerArgs.reverse with
  | p :: f :: _ => if f == "-o" then some p else none
  | _ => none

/-- Modelled from the spec: the SpackError base class of spack/error.py, which
is not under src, stores a message and an optional long message; StopPhase is
such an error used as a control signal. -/
structure StopPhaseE where
  message : String
  longMessage : Option String
  deriving DecidableEq

/-- Serializable child error record with the fields set by ChildError. The pkg
field models the pkg attribute that InstallError subclasses receive from the
parent process, and longMsgF models the long message slot of the SpackError
base, which the ChildError constructor leaves empty. -/
structure ChildErrorS where
  message : String
  longMsgF : Option String
  module : String
  name : String
  traceback : String
  context : List String
  build_log : Option String
  test_log : Option String
  pkg : Option String
  deriving DecidableEq

/-- The ChildError constructor: passes the message to the base class, leaving
the long message slot empty, stores the remaining fields, and sets no pkg tag. -/
def mkChildError (msg moduleName className tb : String) (context : List String)
    (build_log test_log : Option String) : ChildErrorS :=
  ⟨msg, none, moduleName, className, tb, context, build_log, test_log, none⟩

/-- The tuple of salient properties returned by the reduce method of ChildError. -/
def childErrorReduceArgs (ce : ChildErrorS) :
    String × String × String × String × List String × Option String × Option String :=
  (ce.message, ce.module, ce.name, ce.traceback, ce.context, ce.build_log, ce.test_log)

/-- Reconstruction function used by reduce to rebuild pickled child errors. -/
def _make_child_error
    (t : String × String × String × String × List String × Option String × Option String) :
    ChildErrorS :=
  mkChildError t.1 t.2.1 t.2.2.1 t.2.2.2.1 t.2.2.2.2.1 t.2.2.2.2.2.1 t.2.2.2.2.2.2

/-- The pair returned by the reduce method of StopPhase: its message and its
long message. -/
def stopPhaseReduceArgs (s : StopPhaseE) : String × Option String :=
  (s.message, s.longMessage)

/-- Reconstruction function used by reduce to rebuild pickled stop phases. -/
def _make_stop_phase (t : String × Option String) : StopPhaseE := ⟨t.1, t.2⟩

/-- Identity of an arbitrary exception raised inside the child process: the
module and class name of its type, its string rendering, the formatted
traceback, and whether it is the user test failure kind that is excluded from
package context extraction. -/
structure ExcInfo where
  modName : String
  clsName : String
  excStr : String
  tbString : String
  isTestFailure : Bool
  deriving DecidableEq

/-- Outcome of running the environment setup and the build action inside the
child process: a normal return value, a raised StopPhase, or any other raised
exception whatsoever. -/
inductive ChildAction (α : Type) where
  | returns (v : α)
  | throwsStop (s : StopPhaseE)
  | throwsOther (e : ExcInfo)

/-- The single message a child process sends back over the pipe. -/
inductive SentMsg (α : Type) where
  | value (v : α)
  | stop (s : StopPhaseE)
  | childError (ce : ChildErrorS)

/-- The child side of fork: sends the return value on success, sends the
StopPhase verbatim on a stop signal, and wraps any other exception in a
ChildError carrying the package context, the build log path in build context
and the test log path in test context. -/
def child_process {α : Type} (ctx : String) (logPath : Option String)
    (testLogPath : String) (pkgCtx : ExcInfo → List String)
    (action : ChildAction α) : SentMsg α :=
  match action with
  | .returns v => .value v
  | .throwsStop s => .stop s
  | .throwsOther e =>
    let packageContext := if e.isTestFailure then [] else pkgCtx e
    let buildLog := if ctx == "build" then logPath else none
    let testLog := if ctx == "test" then some testLogPath else none
    .childError (mkChildError (e.clsName ++ ": " ++ e.excStr) e.modName e.clsName
      e.tbString packageContext buildLog testLog)

/-- An exception raised while spawning the child, before any message exchange:
whether it is of the InstallError kind, its description, and its pkg attribute. -/
structure SpawnExcS where
  isInstallError : Bool
  descr : String
  pkg : Option String
  deriving DecidableEq

/-- Whether spawning the child process succeeds. -/
inductive SpawnResult where
  | ok
  | fails (e : SpawnExcS)

/-- What the parent ends up doing after one fork call. -/
inductive ForkOutcome (α : Type) where
  | result (v : α)
  | raisedStop (s : StopPhaseE)
  | raisedChild (ce : ChildErrorS)
  | raisedSpawn (e : SpawnExcS)

/-- One full run of fork from the parent point of view: the outcome, the child
errors whose context was printed, and how many blocking receives the parent
performed on the channel. -/
structure ForkRun (α : Type) where
  outcome : ForkOutcome α
  printed : List ChildErrorS
  recvCount : Nat

/-- Parent side of fork: a spawn failure of the InstallError kind is tagged
with the package and re-raised before any receive, any other spawn failure is
re-raised untouched before any receive; otherwise the parent performs exactly
one receive and dispatches on the message: a StopPhase is re-raised without
printing, a ChildError is tagged with the package, printed and re-raised, and
any other value is returned as the result. -/
def fork {α : Type} (pkgName : String) (ctx : String) (logPath : Option String)
    (testLogPath : String) (pkgCtx : ExcInfo → List String)
    (spawn : SpawnResult) (action : ChildAction α) : ForkRun α :=
  match spawn with
  | .fails e =>
    if e.isInstallError then ⟨.raisedSpawn { e with pkg := some pkgName }, [], 0⟩
    else ⟨.raisedSpawn e, [], 0⟩
  | .ok =>
    match child_process ctx logPath testLogPath pkgCtx action with
    | .value v => ⟨.result v, [], 1⟩
    | .stop s => ⟨.raisedStop s, [], 1⟩
    | .childError ce =>
      ⟨.raisedChild { ce with pkg := some pkgName },
        [{ ce with pkg := some pkgName }], 1⟩

/-- Whether a fork run raised a spawn failure carrying the given package tag. -/
def spawnTagged (pkgName : String) {α : Type} (r : ForkRun α) : Bool :=
  match r.outcome with
  | .raisedSpawn e => e.pkg == some pkgName
  | _ => false

/-- Modelled from the spec: parse_log_events of spack.util.log_parse, not under
src, scans a build log and returns the recorded error lines and warning lines;
a log is modelled directly by its parsed events. -/
structure LogEvents where
  errors : List String
  warnings : List String

/-- Modelled from the spec: make_log_context of spack.util.log_parse renders
highlighted context around the given events, modelled as joining the lines. -/
def make_log_context (evs : List String) : String := String.intercalate "\n" evs

/-- Modelled from the spec: plural of spack.util.string renders a count with a
noun, adding an s unless the count is one. -/
def plural (n : Nat) (s : String) : String :=
  toString n ++ " " ++ (if n == 1 then s else s ++ "s")

/-- A highlighted excerpt written by write_log_summary. -/
inductive SummaryChunk where
  | errorExcerpt (header body : String)
  | warningExcerpt (header body : String)
  deriving DecidableEq

/-- Whether a summary chunk is an error excerpt. -/
def isErrEx : SummaryChunk → Bool
  | .errorExcerpt _ _ => true
  | _ => false

/-- Whether a summary chunk is a warning excerpt. -/
def isWarnEx : SummaryChunk → Bool
  | .warningExcerpt _ _ => true
  | _ => false

/-- Faithful port of write_log_summary: writes an error excerpt when the parsed
log has errors, truncated to the last requested number of events, else a
warning excerpt when it has warnings, else nothing. -/
def write_log_summary (log_type : String) (log : LogEvents) (last : Option Nat) :
    List SummaryChunk :=
  let nerr := log.errors.length
  let nwar := log.warnings.length
  if 0 < nerr then
    let cut := truthyN last && decide (last.getD 0 < nerr)
    let errs := if cut then log.errors.drop (nerr - last.getD 0) else log.errors
    let n := if cut then last.getD 0 else nerr
    [SummaryChunk.errorExcerpt
      ("\n" ++ plural n "error" ++ " found in " ++ log_type ++ " log:\n")
      (make_log_context errs)]
  else if 0 < nwar then
    let cut := truthyN last && decide (last.getD 0 < nwar)
    let warns := if cut then log.warnings.drop (nwar - last.getD 0) else log.warnings
    let n := if cut then last.getD 0 else nwar
    [SummaryChunk.warningExcerpt
      ("\n" ++ plural n "warning" ++ " found in " ++ log_type ++ " log:\n")
      (make_log_context warns)]
  else []

/-- A piece of the rendered long message of a ChildError. -/
inductive MsgChunk where
  | header (s : String)
  | logSummary (which : String) (chunks : List SummaryChunk)
  | srcContext (lines : List String)
  | seeLog (which : String) (path : String)
  deriving DecidableEq

/-- Whether a message chunk is a log excerpt. -/
def isLogSummary : MsgChunk → Bool
  | .logSummary _ _ => true
  | _ => false

/-- Whether a message chunk is a source context block. -/
def isSrcContext : MsgChunk → Bool
  | .srcContext _ => true
  | _ => false

/-- Whether an optional log path is truthy and names an existing file. -/
def logPresent (ex : String → Bool) : Option String → Bool
  | none => false
  | some p => !(p == "") && ex p

/-- The stored long message of the error, written only when truthy. -/
def headerChunks (o : Option String) : List MsgChunk :=
  match o with
  | some s => if s == "" then [] else [MsgChunk.header s]
  | none => []

/-- The log excerpt written for one log when its path is truthy and the file
exists. -/
def summaryChunkFor (which : String) (ex : String → Bool)
    (logOf : String → LogEvents) : Option String → List MsgChunk
  | none => []
  | some p =>
    if !(p == "") && ex p then
      [MsgChunk.logSummary which (write_log_summary which (logOf p) none)]
    else []

/-- The pointer to a full log file, written when its path is truthy and the
file exists. -/
def seeChunkFor (which : String) (ex : String → Bool) : Option String → List MsgChunk
  | none => []
  | some p => if !(p == "") && ex p then [MsgChunk.seeLog which p] else []

/-- The source context block, written only when context lines were recorded. -/
def ctxChunks (c : List String) : List MsgChunk :=
  if c.isEmpty then [] else [MsgChunk.srcContext c]

/-- The fixed allow list of external process failure kinds from ChildError. -/
def build_errors : List (String × String) := [("spack.util.executable", "ProcessError")]

/-- Faithful port of the long_message property of ChildError: the stored long
message, then either log excerpts when the failing type is in the build errors
allow list, or the source context lines otherwise, then pointers to the full
log files. -/
def long_message (ce : ChildErrorS) (ex : String → Bool)
    (logOf : String → LogEvents) : List MsgChunk :=
  headerChunks ce.longMsgF
    ++ (if build_errors.contains (ce.module, ce.name) then
          summaryChunkFor "build" ex logOf ce.build_log
            ++ summaryChunkFor "test" ex logOf ce.test_log
        else ctxChunks ce.context)
    ++ seeChunkFor "build" ex ce.build_log ++ seeChunkFor "test" ex ce.test_log

/-- Dependency edge types. -/
inductive DepKind where
  | build | link | run | test
  deriving DecidableEq

/-- A resolved dependency DAG: nodes are numbered, and each node has an ordered
list of outgoing edges carrying their dependency types. -/
structure DepGraph where
  nodes : List Nat
  edges : Nat → List (Nat × List DepKind)

/-- Modelled from the spec: the traverse method of Spec (spack/spec.py is not
under src) in post order, following edges whose type meets the wanted set,
visiting every node at most once; returns the updated visited set together with
the emitted order, with fuel bounding the recursion depth. -/
def traverseChildren (g : DepGraph) (dts : List DepKind) :
    Nat → List Nat → Nat → List Nat × List Nat
  | 0, vis, _ => (vis, [])
  | fuel + 1, vis, n =>
    (g.edges n).foldl
      (fun acc e =>
        if (e.2.any fun d => dts.contains d) && !(acc.1.contains e.1) then
          let r := traverseChildren g dts fuel (e.1 :: acc.1) e.1
          (r.1, acc.2 ++ r.2 ++ [e.1])
        else acc)
      (vis, [])

/-- Modelled from the spec: post order traversal of the dependencies of a node,
excluding the node itself. -/
def traversePost (g : DepGraph) (dts : List DepKind) (root : Nat) : List Nat :=
  (traverseChildren g dts (g.nodes.length) [root] root).2

/-- Modelled from the spec: the dependencies method of Spec with a deptype
filter, returning the direct dependencies reached by edges of the wanted types. -/
def directDeps (g : DepGraph) (n : Nat) (dts : List DepKind) : List Nat :=
  (g.edges n).filterMap fun e =>
    if e.2.any fun d => dts.contains d then some e.1 else none

/-- Modelled from the spec: the operations of the EnvironmentModifications
ledger (spack.util.environment is not under src). -/
inductive EnvOp where
  | set (n v : String)
  | unset (n : String)
  | prependPath (n v : String)
  | appendPath (n v : String)
  deriving DecidableEq

/-- Modelled from the spec: applying one ledger operation to an environment,
with path operations joining on a colon. -/
def applyOp (env : String → Option String) : EnvOp → String → Option String
  | .set n v => fun q => if q == n then some v else env q
  | .unset n => fun q => if q == n then none else env q
  | .prependPath n v => fun q =>
    if q == n then
      match env n with
      | some old => some (v ++ ":" ++ old)
      | none => some v
    else env q
  | .appendPath n v => fun q =>
    if q == n then
      match env n with
      | some old => some (old ++ ":" ++ v)
      | none => some v
    else env q

/-- Modelled from the spec: applying the ledger in order, so that a later set
of a variable wins over an earlier one. -/
def applyOps (ops : List EnvOp) (env : String → Option String) : String → Option String :=
  ops.foldl applyOp env

/-- Per package recipe data needed by the composer: the ledger contributions of
its two dependent environment hooks. -/
structure PkgNode where
  buildEnvMods : List EnvOp
  runEnvMods : List EnvOp

/-- Observable calls made while composing dependency modifications. -/
inductive TraceEv where
  | setModuleVars (d : Nat)
  | setupDependentPackage (d : Nat) (root : Nat)
  | callHook (method : String) (d : Nat)
  deriving DecidableEq

/-- The context table of modifications_from_dependencies: the dependency types
to follow and the hook to invoke, per context kind. -/
def deptype_and_method (context : String) : Option (List DepKind × String) :=
  if context == "build" then
    some ([DepKind.build, DepKind.link, DepKind.test],
      "setup_dependent_build_environment")
  else if context == "run" then
    some ([DepKind.link, DepKind.run], "setup_dependent_run_environment")
  else if context == "test" then
    some ([DepKind.link, DepKind.run, DepKind.test],
      "setup_dependent_run_environment")
  else none

/-- Faithful port of modifications_from_dependencies: selects dependency types
and hook by context, walks the dependencies in post order excluding the root,
and for each one sets its module variables, lets it customize the module scope
of the root package, then appends its hook ledger; returns the call trace and
the composed ledger. -/
def modifications_from_dependencies (g : DepGraph) (pkgs : Nat → PkgNode)
    (root : Nat) (context : String) : Option (List TraceEv × List EnvOp) :=
  match deptype_and_method context with
  | none => none
  | some (dts, method) =>
    some ((traversePost g dts root).foldl
      (fun acc d =>
        let mods := if method == "setup_dependent_build_environment" then
          (pkgs d).buildEnvMods else (pkgs d).runEnvMods
        (acc.1 ++ [TraceEv.setModuleVars d, TraceEv.setupDependentPackage d root,
          TraceEv.callHook method d], acc.2 ++ mods))
      ([], []))

/-- Filesystem paths of the directory synthesis code, modelled as lists of
components: joining a component is append, the filesystem root is the empty
list. -/
abbrev SPath := List String

/-- Modelled from the spec: the canonical system paths that are filtered from
synthesized directory lists (spack.util.environment is not under src). -/
def system_paths : List SPath := [[], ["usr"], ["usr", "local"]]

/-- Whether a path is one of the canonical system paths. -/
def is_system_path (p : SPath) : Bool := decide (p ∈ system_paths)

/-- Modelled from the spec: filter_system_paths drops the canonical system
paths, keeping order. -/
def filter_system_paths (l : List SPath) : List SPath :=
  l.filter fun p => !(is_system_path p)

/-- Modelled from the spec: dedupe of llnl.util.lang keeps the first occurrence
of each element, preserving order; the first argument accumulates what was
already seen. -/
def dedupeAux (seen : List SPath) : List SPath → List SPath
  | [] => []
  | x :: xs =>
    if x ∈ seen then dedupeAux seen xs else x :: dedupeAux (x :: seen) xs

/-- Modelled from the spec: dedupe keeping first occurrences. -/
def dedupe (l : List SPath) : List SPath := dedupeAux [] l

/-- What set_build_environment_variables queries from one link dependency: its
node number, its install root, the library directories reported by the libs
query (none models a NoLibrariesError), and the header directories reported by
the headers query (none models a NoHeadersError). -/
structure DepInfo where
  name : Nat
  pfx : SPath
  libDirs : Option (List SPath)
  hdrDirs : Option (List SPath)

/-- The candidate link directories contributed by one dependency: the
directories of its discovered libraries when any were found, then its lib and
lib64 subdirectories that exist on disk. -/
def dep_link_dirs (isdir : SPath → Bool) (dep : DepInfo) : List SPath :=
  (match dep.libDirs with | some ds => ds | none => [])
    ++ (["lib", "lib64"].filterMap fun s =>
        if isdir (dep.pfx ++ [s]) then some (dep.pfx ++ [s]) else none)

/-- The three directory lists synthesized for the compiler wrapper. -/
structure BuildDirs where
  linkDirs : List SPath
  includeDirs : List SPath
  rpathDirs : List SPath
  deriving DecidableEq

/-- One step of the directory gathering loop of
set_build_environment_variables: a dependency whose root is a system path is
skipped, any other contributes its link directories, its header directories,
and, when selected by the rpath policy, its link directories to the rpath list. -/
def dep_step (isdir : SPath → Bool) (rpathNames : List Nat)
    (acc : BuildDirs) (dep : DepInfo) : BuildDirs :=
  if is_system_path dep.pfx then acc
  else
    let dld := dep_link_dirs isdir dep
    ⟨acc.linkDirs ++ dld,
      acc.includeDirs ++ (match dep.hdrDirs with | some h => h | none => []),
      acc.rpathDirs ++ (if dep.name ∈ rpathNames then dld else [])⟩

/-- The directory gathering loop of set_build_environment_variables: the rpath
list starts unconditionally with the lib and lib64 of the package being built,
then each link dependency contributes through dep_step, in the iteration order
of the dependency set. -/
def raw_build_dirs (isdir : SPath → Bool) (ownPfx : SPath)
    (linkDeps : List DepInfo) (rpathNames : List Nat) : BuildDirs :=
  linkDeps.foldl (dep_step isdir rpathNames)
    ⟨[], [], [ownPfx ++ ["lib"], ownPfx ++ ["lib64"]]⟩

/-- The final directory lists written to the environment: system paths
filtered out, then de-duplicated keeping first occurrences. -/
def final_build_dirs (isdir : SPath → Bool) (ownPfx : SPath)
    (linkDeps : List DepInfo) (rpathNames : List Nat) : BuildDirs :=
  let r := raw_build_dirs isdir ownPfx linkDeps rpathNames
  ⟨dedupe (filter_system_paths r.linkDirs),
    dedupe (filter_system_paths r.includeDirs),
    dedupe (filter_system_paths r.rpathDirs)⟩

/-- The prefixes written to CMAKE_PREFIX_PATH: the build and link dependency
roots with system paths filtered out. -/
def cmake_prefix_paths (buildLinkPfxs : List SPath) : List SPath :=
  filter_system_paths buildLinkPfxs

/-- Faithful port of get_rpath_deps: every dependency reachable through link
edges when the package declares transitive rpaths, else only the direct link
dependencies. The source uses the default traversal order here while only the
membership of the returned list is consumed. -/
def get_rpath_deps (g : DepGraph) (root : Nat) (transitive_rpaths : Bool) : List Nat :=
  if transitive_rpaths then traversePost g [DepKind.link] root
  else directDeps g root [DepKind.link]

/-- C9: serialization of a ChildError round-trips: rebuilding one through the
function and argument tuple of its reduce method preserves the message, module,
name, traceback, context, build log and test log fields; likewise rebuilding a
StopPhase through its reduce method preserves its message and long message. -/
theorem c9_reduce_round_trip (ce : ChildErrorS) (s : StopPhaseE) :
    (_make_child_error (childErrorReduceArgs ce)).message = ce.message
    ∧ (_make_child_error (childErrorReduceArgs ce)).module = ce.module
    ∧ (_make_child_error (childErrorReduceArgs ce)).name = ce.name
    ∧ (_make_child_error (childErrorReduceArgs ce)).traceback = ce.traceback
    ∧ (_make_child_error (childErrorReduceArgs ce)).context = ce.context
    ∧ (_make_child_error (childErrorReduceArgs ce)).build_log = ce.build_log
    ∧ (_make_child_error (childErrorReduceArgs ce)).test_log = ce.test_log
    ∧ _make_stop_phase (stopPhaseReduceArgs s) = s :=
  ⟨rfl, rfl, rfl, rfl, rfl, rfl, rfl, rfl⟩

/-- C1: with the spawn succeeding, the parent observes exhaustively one of
three kinds of result: a StopPhase, re-raised without any printing; a
ChildError, printed and re-raised; or the normal return value. In the child,
every raised exception other than StopPhase, of any type whatsoever, is
converted into a ChildError before being sent. -/
theorem c1_fork_dispatch {α : Type} (pkgName ctx : String) (logPath : Option String)
    (testLogPath : String) (pkgCtx : ExcInfo → List String) (action : ChildAction α) :
    (∀ v, action = ChildAction.returns v →
      fork pkgName ctx logPath testLogPath pkgCtx SpawnResult.ok action
        = ⟨ForkOutcome.result v, [], 1⟩)
    ∧ (∀ s, action = ChildAction.throwsStop s →
      fork pkgName ctx logPath testLogPath pkgCtx SpawnResult.ok action
        = ⟨ForkOutcome.raisedStop s, [], 1⟩)
    ∧ (∀ e, action = ChildAction.throwsOther e →
      ∃ ce, fork pkgName ctx logPath testLogPath pkgCtx SpawnResult.ok action
          = ⟨ForkOutcome.raisedChild ce, [ce], 1⟩
        ∧ ce.module = e.modName ∧ ce.name = e.clsName
        ∧ ce.message = e.clsName ++ ": " ++ e.excStr) := by
  refine ⟨?_, ?_, ?_⟩
  · rintro v rfl; rfl
  · rintro s rfl; rfl
  · rintro e rfl
    refine ⟨_, rfl, rfl, rfl, rfl⟩

/-- Witness for C1 at a concrete child exception of an unrelated type. -/
theorem c1_fork_dispatch_witness :
    ∃ ce, fork "pkgA" "build" (some "/log") "/tlog" (fun _ => ["ctxline"])
        SpawnResult.ok
        (ChildAction.throwsOther ⟨"builtins", "ValueError", "boom", "tb", false⟩
          : ChildAction Nat)
        = ⟨ForkOutcome.raisedChild ce, [ce], 1⟩
      ∧ ce.module = "builtins" ∧ ce.name = "ValueError"
      ∧ ce.message = "ValueError" ++ ": " ++ "boom" :=
  (c1_fork_dispatch "pkgA" "build" (some "/log") "/tlog" (fun _ => ["ctxline"])
    (ChildAction.throwsOther ⟨"builtins", "ValueError", "boom", "tb", false⟩)).2.2
    ⟨"builtins", "ValueError", "boom", "tb", false⟩ rfl

/-- Concrete spawn failure that is not of the InstallError kind, as an
operating system error during process creation would be. -/
def spawnOsError : SpawnExcS := ⟨false, "OSError: spawn failed", none⟩

/-- C8 counterexample: a spawn failure that is not of the InstallError kind is
re-raised exactly as it was, with its pkg attribute still unset and nothing
printed or received, so the claim that every kind of spawn time failure is
tagged with the identity of the target package fails at this input. -/
theorem c8_untagged_spawn_counterexample :
    fork "pkgA" "build" none "/tlog" (fun _ => [])
        (SpawnResult.fails spawnOsError) (ChildAction.returns (0 : Nat))
      = ⟨ForkOutcome.raisedSpawn spawnOsError, [], 0⟩
    ∧ spawnOsError.pkg = none
    ∧ spawnTagged "pkgA"
        (fork "pkgA" "build" none "/tlog" (fun _ => [])
          (SpawnResult.fails spawnOsError) (ChildAction.returns (0 : Nat))) = false :=
  ⟨rfl, rfl, rfl⟩

/-- C8 amended: for every kind of spawn time failure the parent never performs
the blocking receive on the channel; when the failure is of the InstallError
kind it is tagged with the identity of the target package and re-raised, and
when it is of any other kind it is re-raised exactly as it was, untagged, with
nothing printed. -/
theorem c8_spawn_failure_amended {α : Type} (pkgName ctx : String)
    (logPath : Option String) (testLogPath : String)
    (pkgCtx : ExcInfo → List String) (action : ChildAction α) (e : SpawnExcS) :
    (fork pkgName ctx logPath testLogPath pkgCtx (SpawnResult.fails e) action).recvCount = 0
    ∧ (e.isInstallError = true →
        fork pkgName ctx logPath testLogPath pkgCtx (SpawnResult.fails e) action
          = ⟨ForkOutcome.raisedSpawn { e with pkg := some pkgName }, [], 0⟩)
    ∧ (e.isInstallError = false →
        fork pkgName ctx logPath testLogPath pkgCtx (SpawnResult.fails e) action
          = ⟨ForkOutcome.raisedSpawn e, [], 0⟩) := by
  refine ⟨?_, ?_, ?_⟩
  · simp only [fork]
    split <;> rfl
  · intro h
    simp [fork, h]
  · intro h
    simp [fork, h]

/-- Witness for the amended C8 at a concrete spawn failure of the InstallError
kind and at one of an unrelated kind. -/
theorem c8_spawn_failure_amended_witness :
    (fork "pkgA" "build" none "/tlog" (fun _ => [])
        (SpawnResult.fails ⟨true, "InstallError: boom", none⟩)
        (ChildAction.returns (0 : Nat))).recvCount = 0
    ∧ fork "pkgA" "build" none "/tlog" (fun _ => [])
        (SpawnResult.fails ⟨true, "InstallError: boom", none⟩)
        (ChildAction.returns (0 : Nat))
      = ⟨ForkOutcome.raisedSpawn ⟨true, "InstallError: boom", some "pkgA"⟩, [], 0⟩
    ∧ fork "pkgA" "build" none "/tlog" (fun _ => [])
        (SpawnResult.fails ⟨false, "OSError: dup failed", none⟩)
        (ChildAction.returns (0 : Nat))
      = ⟨ForkOutcome.raisedSpawn ⟨false, "OSError: dup failed", none⟩, [], 0⟩ :=
  ⟨(c8_spawn_failure_amended "pkgA" "build" none "/tlog" (fun _ => [])
      (ChildAction.returns (0 : Nat)) ⟨true, "InstallError: boom", none⟩).1,
    (c8_spawn_failure_amended "pkgA" "build" none "/tlog" (fun _ => [])
      (ChildAction.returns (0 : Nat)) ⟨true, "InstallError: boom", none⟩).2.1 rfl,
    (c8_spawn_failure_amended "pkgA" "build" none "/tlog" (fun _ => [])
      (ChildAction.returns (0 : Nat)) ⟨false, "OSError: dup failed", none⟩).2.2 rfl⟩

theorem any_isLogSummary_headerChunks (o : Option String) :
    (headerChunks o).any isLogSummary = false := by
  cases o with
  | none => rfl
  | some s =>
    simp only [headerChunks]
    split <;> rfl

theorem any_isLogSummary_summaryChunkFor (w : String) (ex : String → Bool)
    (logOf : String → LogEvents) (o : Option String) :
    (summaryChunkFor w ex logOf o).any isLogSummary = logPresent ex o := by
  cases o with
  | none => rfl
  | some p =>
    simp only [summaryChunkFor, logPresent]
    split
    · next h => simp [isLogSummary, h]
    · next h =>
      simp only [Bool.not_eq_true] at h
      simp [h]

theorem any_isLogSummary_seeChunkFor (w : String) (ex : String → Bool)
    (o : Option String) :
    (seeChunkFor w ex o).any isLogSummary = false := by
  cases o with
  | none => rfl
  | some p =>
    simp only [seeChunkFor]
    split <;> rfl

theorem any_isLogSummary_ctxChunks (c : List String) :
    (ctxChunks c).any isLogSummary = false := by
  unfold ctxChunks
  split <;> rfl

theorem any_isSrcContext_headerChunks (o : Option String) :
    (headerChunks o).any isSrcContext = false := by
  cases o with
  | none => rfl
  | some s =>
    simp only [headerChunks]
    split <;> rfl

theorem any_isSrcContext_summaryChunkFor (w : String) (ex : String → Bool)
    (logOf : String → LogEvents) (o : Option String) :
    (summaryChunkFor w ex logOf o).any isSrcContext = false := by
  cases o with
  | none => rfl
  | some p =>
    simp only [summaryChunkFor]
    split <;> rfl

theorem any_isSrcContext_seeChunkFor (w : String) (ex : String → Bool)
    (o : Option String) :
    (seeChunkFor w ex o).any isSrcContext = false := by
  cases o with
  | none => rfl
  | some p =>
    simp only [seeChunkFor]
    split <;> rfl

theorem any_isSrcContext_ctxChunks (c : List String) :
    (ctxChunks c).any isSrcContext = !c.isEmpty := by
  unfold ctxChunks
  split
  · next h => simp [h]
  · next h =>
    simp only [Bool.not_eq_true] at h
    simp [isSrcContext, h]

/-- C3: the long message of a ChildError contains a log excerpt only when the
module and name of the original failure are in the fixed build errors allow
list, and otherwise contains the recorded source context lines; and
write_log_summary writes an error excerpt exactly when the parsed log has at
least one error, and a warning excerpt exactly when it has zero errors and at
least one warning. -/
theorem c3_long_message_rendering (ce : ChildErrorS) (ex : String → Bool)
    (logOf : String → LogEvents) (t : String) (log : LogEvents) (last : Option Nat) :
    ((long_message ce ex logOf).any isLogSummary
      = (build_errors.contains (ce.module, ce.name)
          && (logPresent ex ce.build_log || logPresent ex ce.test_log)))
    ∧ ((long_message ce ex logOf).any isSrcContext
      = (!build_errors.contains (ce.module, ce.name) && !ce.context.isEmpty))
    ∧ ((write_log_summary t log last).any isErrEx = !log.errors.isEmpty)
    ∧ ((write_log_summary t log last).any isWarnEx
      = (log.errors.isEmpty && !log.warnings.isEmpty)) := by
  refine ⟨?_, ?_, ?_, ?_⟩
  · simp only [long_message, List.any_append, any_isLogSummary_headerChunks,
      any_isLogSummary_seeChunkFor, Bool.or_false, Bool.false_or]
    split
    · next h =>
      rw [h, Bool.true_and, List.any_append, any_isLogSummary_summaryChunkFor,
        any_isLogSummary_summaryChunkFor]
    · next h =>
      rw [Bool.not_eq_true] at h
      rw [h, Bool.false_and, any_isLogSummary_ctxChunks]
  · simp only [long_message, List.any_append, any_isSrcContext_headerChunks,
      any_isSrcContext_seeChunkFor, Bool.or_false, Bool.false_or]
    split
    · next h =>
      rw [h, List.any_append, any_isSrcContext_summaryChunkFor,
        any_isSrcContext_summaryChunkFor]
      simp
    · next h =>
      rw [Bool.not_eq_true] at h
      rw [h, any_isSrcContext_ctxChunks]
      simp
  · rcases log with ⟨errs, warns⟩
    cases errs <;> cases warns <;> simp [write_log_summary, isErrEx, isWarnEx]
  · rcases log with ⟨errs, warns⟩
    cases errs <;> cases warns <;> simp [write_log_summary, isErrEx, isWarnEx]

/-- Three node dependency chain with link edges: node 0 depends on node 1,
which depends on node 2. -/
def chainGraph : DepGraph :=
  ⟨[0, 1, 2], fun n => if n == 0 then [(1, [DepKind.link])]
    else if n == 1 then [(2, [DepKind.link])] else []⟩

/-- Recipe data for the chain: node 1 sets variable X to bval in its dependent
build environment hook, node 2 sets it to cval. -/
def chainPkgs : Nat → PkgNode := fun n =>
  if n == 1 then ⟨[EnvOp.set "X" "bval"], []⟩
  else if n == 2 then ⟨[EnvOp.set "X" "cval"], []⟩
  else ⟨[], []⟩

/-- C2: modifications_from_dependencies selects build, link and test edges with
the dependent build environment hook in build context, link and run edges with
the dependent run environment hook in run context, and link, run and test edges
with the dependent run environment hook in test context; it traverses the
dependencies in post order excluding the root, so on the chain it visits node 2
before node 1, for each one first setting its module variables, then calling
its setup_dependent_package on the module scope of the root, then invoking the
hook, appending the contributions in traversal order, so that the set of X by
the later visited node 1 overrides the one by node 2. -/
theorem c2_composer_order_and_hooks :
    deptype_and_method "build"
      = some ([DepKind.build, DepKind.link, DepKind.test],
          "setup_dependent_build_environment")
    ∧ deptype_and_method "run"
      = some ([DepKind.link, DepKind.run], "setup_dependent_run_environment")
    ∧ deptype_and_method "test"
      = some ([DepKind.link, DepKind.run, DepKind.test],
          "setup_dependent_run_environment")
    ∧ traversePost chainGraph [DepKind.build, DepKind.link, DepKind.test] 0 = [2, 1]
    ∧ modifications_from_dependencies chainGraph chainPkgs 0 "build"
      = some ([TraceEv.setModuleVars 2, TraceEv.setupDependentPackage 2 0,
            TraceEv.callHook "setup_dependent_build_environment" 2,
            TraceEv.setModuleVars 1, TraceEv.setupDependentPackage 1 0,
            TraceEv.callHook "setup_dependent_build_environment" 1],
          [EnvOp.set "X" "cval", EnvOp.set "X" "bval"])
    ∧ applyOps [EnvOp.set "X" "cval", EnvOp.set "X" "bval"] (fun _ => none) "X"
      = some "bval" := by
  refine ⟨rfl, rfl, rfl, by decide, ?_, rfl⟩
  decide

/-- Link dependency data for the chain: node 1 installs under B with one
library directory, node 2 installs under C with one library directory. -/
def chainDepB : DepInfo := ⟨1, ["B"], some [["B", "lib"]], some [["B", "include"]]⟩

/-- Link dependency data for node 2 of the chain. -/
def chainDepC : DepInfo := ⟨2, ["C"], some [["C", "lib"]], none⟩

/-- C4: get_rpath_deps returns every dependency reachable through link edges
when the package declares transitive rpath propagation and only the direct link
dependencies otherwise; consequently, on the link chain 0 to 1 to 2, the
synthesized rpath directories of the root include the lib directory of node 2
exactly when transitive rpaths are enabled. -/
theorem c4_rpath_transitivity :
    (2 ∈ get_rpath_deps chainGraph 0 true)
    ∧ (1 ∈ get_rpath_deps chainGraph 0 true)
    ∧ get_rpath_deps chainGraph 0 false = [1]
    ∧ (["C", "lib"] ∈ (final_build_dirs (fun _ => false) ["A"]
        [chainDepB, chainDepC] (get_rpath_deps chainGraph 0 true)).rpathDirs)
    ∧ (["C", "lib"] ∉ (final_build_dirs (fun _ => false) ["A"]
        [chainDepB, chainDepC] (get_rpath_deps chainGraph 0 false)).rpathDirs)
    ∧ (["B", "lib"] ∈ (final_build_dirs (fun _ => false) ["A"]
        [chainDepB, chainDepC] (get_rpath_deps chainGraph 0 false)).rpathDirs) := by
  refine ⟨by decide, by decide, by decide, by decide, by decide, by decide⟩

theorem dedupeAux_sublist (seen l : List SPath) : (dedupeAux seen l).Sublist l := by
  induction l generalizing seen with
  | nil => simp [dedupeAux]
  | cons x xs ih =>
    simp only [dedupeAux]
    split
    · exact (ih seen).cons x
    · exact (ih (x :: seen)).cons₂ x

theorem mem_dedupeAux (x : SPath) (seen l : List SPath) :
    x ∈ dedupeAux seen l ↔ x ∈ l ∧ x ∉ seen := by
  induction l generalizing seen with
  | nil => simp [dedupeAux]
  | cons y ys ih =>
    simp only [dedupeAux]
    split
    · next hy =>
      rw [ih seen]
      constructor
      · rintro ⟨hx, hs⟩
        exact ⟨List.mem_cons_of_mem y hx, hs⟩
      · rintro ⟨hx, hs⟩
        rcases List.mem_cons.mp hx with h1 | h1
        · subst h1
          exact absurd hy hs
        · exact ⟨h1, hs⟩
    · next hy =>
      constructor
      · intro hmem
        rcases List.mem_cons.mp hmem with h1 | h1
        · subst h1
          exact ⟨List.mem_cons_self x ys, hy⟩
        · obtain ⟨hx, hs⟩ := (ih (y :: seen)).mp h1
          exact ⟨List.mem_cons_of_mem y hx,
            fun hxs => hs (List.mem_cons_of_mem y hxs)⟩
      · rintro ⟨hx, hs⟩
        by_cases hxy : x = y
        · subst hxy
          exact List.mem_cons_self x _
        · rcases List.mem_cons.mp hx with h1 | h1
          · exact absurd h1 hxy
          · exact List.mem_cons_of_mem y ((ih (y :: seen)).mpr
              ⟨h1, fun hmem => (List.mem_cons.mp hmem).elim hxy hs⟩)

theorem nodup_dedupeAux (seen l : List SPath) : (dedupeAux seen l).Nodup := by
  induction l generalizing seen with
  | nil => simp [dedupeAux]
  | cons y ys ih =>
    simp only [dedupeAux]
    split
    · exact ih seen
    · rw [List.nodup_cons]
      refine ⟨fun hmem => ?_, ih (y :: seen)⟩
      exact ((mem_dedupeAux y (y :: seen) ys).mp hmem).2 (List.mem_cons_self y seen)

theorem mem_filter_system (x : SPath) (l : List SPath) :
    x ∈ filter_system_paths l ↔ x ∈ l ∧ is_system_path x = false := by
  simp [filter_system_paths, List.mem_filter, Bool.not_eq_true']

/-- The three properties of the filter and dedupe pipeline: no duplicates, a
subsequence of the raw list, and membership characterized by membership in the
raw list away from system paths. -/
theorem processed_spec (l : List SPath) :
    (dedupe (filter_system_paths l)).Nodup
    ∧ (dedupe (filter_system_paths l)).Sublist l
    ∧ ∀ p, p ∈ dedupe (filter_system_paths l) ↔ p ∈ l ∧ is_system_path p = false := by
  refine ⟨nodup_dedupeAux [] _, ?_, ?_⟩
  · exact (dedupeAux_sublist [] _).trans (List.filter_sublist l)
  · intro p
    rw [dedupe, mem_dedupeAux, mem_filter_system]
    simp

/-- C5: the synthesized link, include and rpath directory lists contain each
directory at most once, in first seen order (they are subsequences of the raw
gathered lists), and never contain a canonical system path; likewise the
prefixes written to CMAKE_PREFIX_PATH have system paths filtered out. -/
theorem c5_dedup_and_system_filter (isdir : SPath → Bool) (ownPfx : SPath)
    (linkDeps : List DepInfo) (rpathNames : List Nat) (blPfxs : List SPath) :
    (final_build_dirs isdir ownPfx linkDeps rpathNames).linkDirs.Nodup
    ∧ (final_build_dirs isdir ownPfx linkDeps rpathNames).includeDirs.Nodup
    ∧ (final_build_dirs isdir ownPfx linkDeps rpathNames).rpathDirs.Nodup
    ∧ (final_build_dirs isdir ownPfx linkDeps rpathNames).linkDirs.Sublist
        (raw_build_dirs isdir ownPfx linkDeps rpathNames).linkDirs
    ∧ (final_build_dirs isdir ownPfx linkDeps rpathNames).includeDirs.Sublist
        (raw_build_dirs isdir ownPfx linkDeps rpathNames).includeDirs
    ∧ (final_build_dirs isdir ownPfx linkDeps rpathNames).rpathDirs.Sublist
        (raw_build_dirs isdir ownPfx linkDeps rpathNames).rpathDirs
    ∧ (∀ p, p ∈ (final_build_dirs isdir ownPfx linkDeps rpathNames).linkDirs
        ↔ p ∈ (raw_build_dirs isdir ownPfx linkDeps rpathNames).linkDirs
          ∧ is_system_path p = false)
    ∧ (∀ p, p ∈ (final_build_dirs isdir ownPfx linkDeps rpathNames).includeDirs
        ↔ p ∈ (raw_build_dirs isdir ownPfx linkDeps rpathNames).includeDirs
          ∧ is_system_path p = false)
    ∧ (∀ p, p ∈ (final_build_dirs isdir ownPfx linkDeps rpathNames).rpathDirs
        ↔ p ∈ (raw_build_dirs isdir ownPfx linkDeps rpathNames).rpathDirs
          ∧ is_system_path p = false)
    ∧ (∀ p, p ∈ cmake_prefix_paths blPfxs ↔ p ∈ blPfxs ∧ is_system_path p = false) :=
  ⟨(processed_spec _).1, (processed_spec _).1, (processed_spec _).1,
    (processed_spec _).2.1, (processed_spec _).2.1, (processed_spec _).2.1,
    (processed_spec _).2.2, (processed_spec _).2.2, (processed_spec _).2.2,
    fun p => mem_filter_system p blPfxs⟩

theorem append_singleton_getLast (l : List String) (a : String) :
    (l ++ [a]).getLast? = some a := by
  induction l with
  | nil => rfl
  | cons x xs ih =>
    cases hxs : xs ++ [a] with
    | nil => exact absurd hxs (by simp)
    | cons y ys =>
      rw [List.cons_append, hxs, List.getLast?_cons_cons, ← hxs, ih]

theorem append_singleton_not_system (p : SPath) (s : String)
    (h1 : s ≠ "usr") (h2 : s ≠ "local") : is_system_path (p ++ [s]) = false := by
  apply decide_eq_false
  intro hmem
  simp only [system_paths, List.mem_cons, List.not_mem_nil, or_false] at hmem
  rcases hmem with h | h | h
  · exact absurd h (by simp)
  · have hg := congrArg List.getLast? h
    rw [append_singleton_getLast] at hg
    simp only [List.getLast?_singleton, Option.some.injEq] at hg
    exact h1 hg
  · have hg := congrArg List.getLast? h
    rw [append_singleton_getLast] at hg
    simp only [List.getLast?_cons_cons, List.getLast?_singleton,
      Option.some.injEq] at hg
    exact h2 hg

theorem append_lib64_ne_lib (p : SPath) : p ++ ["lib64"] ≠ p ++ ["lib"] := by
  intro h
  have hg := congrArg List.getLast? h
  rw [append_singleton_getLast, append_singleton_getLast] at hg
  exact absurd (Option.some.inj hg) (by decide)

theorem rpath_foldl_ext (isdir : SPath → Bool) (rpathNames : List Nat) :
    ∀ (deps : List DepInfo) (acc : BuildDirs),
      ∃ r, (deps.foldl (dep_step isdir rpathNames) acc).rpathDirs
        = acc.rpathDirs ++ r := by
  intro deps
  induction deps with
  | nil =>
    intro acc
    exact ⟨[], by simp⟩
  | cons d ds ih =>
    intro acc
    obtain ⟨r, hr⟩ := ih (dep_step isdir rpathNames acc d)
    rw [List.foldl_cons, hr]
    unfold dep_step
    split
    · exact ⟨r, rfl⟩
    · exact ⟨(if d.name ∈ rpathNames then dep_link_dirs isdir d else []) ++ r,
        by simp⟩

/-- C6: the synthesized rpath directory list includes the lib and lib64 of the
package being built unconditionally, for every existence predicate on
directories, and they come first, before any dependency contributed directory. -/
theorem c6_own_rpaths_first (isdir : SPath → Bool) (ownPfx : SPath)
    (linkDeps : List DepInfo) (rpathNames : List Nat) :
    (final_build_dirs isdir ownPfx linkDeps rpathNames).rpathDirs.take 2
      = [ownPfx ++ ["lib"], ownPfx ++ ["lib64"]] := by
  obtain ⟨rest, hr⟩ := rpath_foldl_ext isdir rpathNames linkDeps
    ⟨[], [], [ownPfx ++ ["lib"], ownPfx ++ ["lib64"]]⟩
  have hraw : (raw_build_dirs isdir ownPfx linkDeps rpathNames).rpathDirs
      = [ownPfx ++ ["lib"], ownPfx ++ ["lib64"]] ++ rest := hr
  have h1 : is_system_path (ownPfx ++ ["lib"]) = false :=
    append_singleton_not_system ownPfx "lib" (by decide) (by decide)
  have h2 : is_system_path (ownPfx ++ ["lib64"]) = false :=
    append_singleton_not_system ownPfx "lib64" (by decide) (by decide)
  show (dedupe (filter_system_paths
      (raw_build_dirs isdir ownPfx linkDeps rpathNames).rpathDirs)).take 2
    = [ownPfx ++ ["lib"], ownPfx ++ ["lib64"]]
  rw [hraw]
  simp only [filter_system_paths, List.cons_append, List.nil_append,
    List.filter_cons, h1, h2, Bool.not_false, if_true]
  simp [dedupe, dedupeAux, append_lib64_ne_lib ownPfx, List.take]

theorem string_data_append (a b : String) : (a ++ b).data = a.data ++ b.data := by
  cases a
  cases b
  rfl

theorem isPrefixOfB_append (p q : List Char) : isPrefixOfB p (p ++ q) = true := by
  induction p with
  | nil => rfl
  | cons c cs ih => simp [isPrefixOfB, ih]

/-- C10: with neither a version nor a compatibility version supplied, the
conversion creates no symlinks, and the output path passed through the -o flag
is exactly the caller supplied shared library path, or, when none is given, the
static library path with its extension replaced by the platform suffix, which
is dylib on darwin and so elsewhere. -/
theorem c10_unversioned_output (platform arch staticLib s : String)
    (arguments : List String) (hs : (s == "") = false) :
    ((_static_to_shared_library platform arch staticLib (some s) arguments
        none none).symlinks = []
      ∧ oPath (_static_to_shared_library platform arch staticLib (some s)
          arguments none none) = some s)
    ∧ ((_static_to_shared_library platform arch staticLib none arguments
        none none).symlinks = []
      ∧ oPath (_static_to_shared_library platform arch staticLib none
          arguments none none)
        = some (splitextRoot staticLib ++ "." ++ dso_suffix platform))
    ∧ dso_suffix "darwin" = "dylib"
    ∧ ((platform == "darwin") = false → dso_suffix platform = "so") := by
  refine ⟨⟨?_, ?_⟩, ⟨?_, ?_⟩, rfl, ?_⟩
  · simp [_static_to_shared_library, sts_symlinks, truthyS, effCompat]
  · simp [_static_to_shared_library, oPath, base_shared_lib,
      versioned_shared_lib, truthyS, effCompat, hs, List.reverse_append]
  · simp [_static_to_shared_library, sts_symlinks, truthyS, effCompat]
  · simp [_static_to_shared_library, oPath, base_shared_lib,
      versioned_shared_lib, truthyS, effCompat, List.reverse_append]
  · intro hp
    simp [dso_suffix, hp]

/-- Witness for C10 at a concrete static library on a linux platform. -/
theorem c10_unversioned_output_witness :
    ((_static_to_shared_library "linux" "linux-centos8-x86_64" "/p/liba.a"
        (some "/q/libz.so") [] none none).symlinks = []
      ∧ oPath (_static_to_shared_library "linux" "linux-centos8-x86_64"
          "/p/liba.a" (some "/q/libz.so") [] none none) = some "/q/libz.so")
    ∧ ((_static_to_shared_library "linux" "linux-centos8-x86_64" "/p/liba.a"
        none [] none none).symlinks = []
      ∧ oPath (_static_to_shared_library "linux" "linux-centos8-x86_64"
          "/p/liba.a" none [] none none) = some "/p/liba.so")
    ∧ dso_suffix "darwin" = "dylib"
    ∧ (("linux" == "darwin") = false → dso_suffix "linux" = "so") :=
  c10_unversioned_output "linux" "linux-centos8-x86_64" "/p/liba.a"
    "/q/libz.so" [] (by decide)

theorem sts_symlinks_snd (base out : String) (version compat : Option String)
    (h : (truthyS compat && !(compat == version)) = false) :
    ∀ pr, pr ∈ sts_symlinks base out version compat → pr.2 = base := by
  intro pr hpr
  rw [sts_symlinks] at hpr
  simp only [h, Bool.false_eq_true, if_false, List.append_nil] at hpr
  split at hpr
  · simp only [List.mem_singleton] at hpr
    rw [hpr]
  · exact absurd hpr (List.not_mem_nil pr)

/-- C7: when a version or compatibility version is supplied the output filename
is suffixed with the version, or with the compatibility version when only that
one is given; a symlink from the unversioned name to the versioned artifact is
created, and a second symlink from the compat versioned name is created exactly
when a compatibility version is supplied that differs from the version; on
linux and cray architectures the emitted invocation contains -shared and a
-Wl,-soname argument, and on darwin it contains -dynamiclib and -install_name. -/
theorem c7_versioned_conversion (platform arch staticLib : String)
    (sharedLib? : Option String) (arguments : List String)
    (version compat? : Option String) :
    (∀ v, version = some v → (v == "") = false →
      oPath (_static_to_shared_library platform arch staticLib sharedLib?
          arguments version compat?)
        = some (base_shared_lib platform staticLib sharedLib? ++ "." ++ v))
    ∧ (∀ c, version = none → compat? = some c → (c == "") = false →
      oPath (_static_to_shared_library platform arch staticLib sharedLib?
          arguments version compat?)
        = some (base_shared_lib platform staticLib sharedLib? ++ "." ++ c))
    ∧ ((truthyS version || truthyS (effCompat version compat?)) = true →
      (basename (versioned_shared_lib (base_shared_lib platform staticLib sharedLib?)
          version (effCompat version compat?)),
        base_shared_lib platform staticLib sharedLib?)
        ∈ (_static_to_shared_library platform arch staticLib sharedLib?
            arguments version compat?).symlinks)
    ∧ ((truthyS (effCompat version compat?)
          && !(effCompat version compat? == version)) = true →
      (_static_to_shared_library platform arch staticLib sharedLib?
          arguments version compat?).symlinks
        = [(basename (versioned_shared_lib (base_shared_lib platform staticLib sharedLib?)
              version (effCompat version compat?)),
            base_shared_lib platform staticLib sharedLib?),
          (basename (versioned_shared_lib (base_shared_lib platform staticLib sharedLib?)
              version (effCompat version compat?)),
            base_shared_lib platform staticLib sharedLib? ++ "."
              ++ (effCompat version compat?).getD "")])
    ∧ ((truthyS (effCompat version compat?)
          && !(effCompat version compat? == version)) = false →
      ∀ pr, pr ∈ (_static_to_shared_library platform arch staticLib sharedLib?
          arguments version compat?).symlinks →
        pr.2 = base_shared_lib platform staticLib sharedLib?)
    ∧ ((strContainsSub arch "linux" || strContainsSub arch "cray") = true →
      "-shared" ∈ (_static_to_shared_library platform arch staticLib sharedLib?
          arguments version compat?).compilerArgs
        ∧ ((_static_to_shared_library platform arch staticLib sharedLib?
            arguments version compat?).compilerArgs.any fun a =>
              isPrefixOfB ("-Wl,-soname,".data) a.data) = true)
    ∧ ((strContainsSub arch "linux" || strContainsSub arch "cray") = false →
      strContainsSub arch "darwin" = true →
      "-dynamiclib" ∈ (_static_to_shared_library platform arch staticLib
          sharedLib? arguments version compat?).compilerArgs
        ∧ "-install_name" ∈ (_static_to_shared_library platform arch staticLib
            sharedLib? arguments version compat?).compilerArgs) := by
  refine ⟨?_, ?_, ?_, ?_, ?_, ?_, ?_⟩
  · rintro v rfl hne
    simp [_static_to_shared_library, oPath, versioned_shared_lib, truthyS, hne,
      List.reverse_append]
  · rintro c rfl rfl hne
    simp [_static_to_shared_library, oPath, versioned_shared_lib, effCompat,
      truthyS, hne, List.reverse_append]
  · intro h
    simp [_static_to_shared_library, sts_symlinks, h]
  · intro h
    have hc : truthyS (effCompat version compat?) = true := by
      rw [Bool.and_eq_true] at h
      exact h.1
    have hne : (!(effCompat version compat? == version)) = true := by
      rw [Bool.and_eq_true] at h
      exact h.2
    simp only [_static_to_shared_library, sts_symlinks, h, hc, hne, Bool.or_true,
      Bool.true_and, if_true, List.singleton_append]
  · intro h pr hpr
    exact sts_symlinks_snd (base_shared_lib platform staticLib sharedLib?)
      (versioned_shared_lib (base_shared_lib platform staticLib sharedLib?)
        version (effCompat version compat?)) version (effCompat version compat?)
      h pr hpr
  · intro h
    constructor
    · simp [_static_to_shared_library, platform_link_args, h]
    · simp [_static_to_shared_library, platform_link_args, h, List.any_append,
        List.any_cons, string_data_append, isPrefixOfB]
  · intro h1 h2
    constructor
    · simp [_static_to_shared_library, platform_link_args, h1, h2]
    · simp [_static_to_shared_library, platform_link_args, h1, h2]

/-- Witness for C7 at concrete linux and darwin conversions with version 2.0
and compatibility version 1. -/
theorem c7_versioned_conversion_witness :
    oPath (_static_to_shared_library "linux" "linux-centos8-x86_64"
        "/p/libfoo.a" none [] (some "2.0") (some "1"))
      = some "/p/libfoo.so.2.0"
    ∧ (_static_to_shared_library "linux" "linux-centos8-x86_64" "/p/libfoo.a"
        none [] (some "2.0") (some "1")).symlinks
      = [("libfoo.so.2.0", "/p/libfoo.so"), ("libfoo.so.2.0", "/p/libfoo.so.1")]
    ∧ ("-shared" ∈ (_static_to_shared_library "linux" "linux-centos8-x86_64"
          "/p/libfoo.a" none [] (some "2.0") (some "1")).compilerArgs
        ∧ ((_static_to_shared_library "linux" "linux-centos8-x86_64"
            "/p/libfoo.a" none [] (some "2.0") (some "1")).compilerArgs.any
              fun a => isPrefixOfB ("-Wl,-soname,".data) a.data) = true)
    ∧ ("-dynamiclib" ∈ (_static_to_shared_library "darwin" "darwin-sierra-x86_64"
          "/p/libfoo.a" none [] (some "2.0") (some "1")).compilerArgs
        ∧ "-install_name" ∈ (_static_to_shared_library "darwin"
            "darwin-sierra-x86_64" "/p/libfoo.a" none [] (some "2.0")
            (some "1")).compilerArgs) :=
  ⟨(c7_versioned_conversion "linux" "linux-centos8-x86_64" "/p/libfoo.a" none []
      (some "2.0") (some "1")).1 "2.0" rfl (by decide),
    (c7_versioned_conversion "linux" "linux-centos8-x86_64" "/p/libfoo.a" none []
      (some "2.0") (some "1")).2.2.2.1 (by decide),
    (c7_versioned_conversion "linux" "linux-centos8-x86_64" "/p/libfoo.a" none []
      (some "2.0") (some "1")).2.2.2.2.2.1 (by decide),
    (c7_versioned_conversion "darwin" "darwin-sierra-x86_64" "/p/libfoo.a" none []
      (some "2.0") (some "1")).2.2.2.2.2.2 (by decide) (by decide)⟩

end SpackBE
